import Mathlib

/-!
# Verification of the Cat CRUD resource

The repository under verification is a minimal CRUD HTTP resource for a
single entity `Cat` with fields `name` (text, max 64), `age` (integer) and
`gender` (text, max 32).  The source files (`cats/models.py`,
`cats/serializers.py`, `cats/views.py`, `cats/urls.py`) are purely
declarative: they configure a model, a model serializer with
`fields = "__all__"`, a `ModelViewSet` with
`permission_classes = [IsAuthenticated]`, and a router.  The runtime
behavior of those declarations lives in the web framework, which is not
part of the repository; the definitions below therefore model that
behavior from the specification, parameterized by exactly the
declarations found in the source files (field names, maximum lengths,
required-ness, and the authentication gate on every operation).

Where the specification is silent, the documented default semantics of
the declarations in `cats/models.py` are used: a character field declared
without `blank=True` is required and rejects the empty string on
deserialization.
-/

/-- A JSON value as it appears in a request or response body. -/
inductive JVal where
  | jnull : JVal
  | jbool : Bool → JVal
  | jint : Int → JVal
  | jstr : String → JVal
deriving Repr, DecidableEq

/-- A JSON object: an association list of keys and values. -/
abbrev JObj := List (String × JVal)

/-- Modelled from the spec: the `Cat` entity of `cats/models.py` —
`id` integer primary key (system-generated), `name` text (max 64),
`age` integer, `gender` text (max 32). -/
structure Cat where
  id : Nat
  name : String
  age : Int
  gender : String
deriving Repr, DecidableEq

/-- Modelled from the spec: the state of the persistence collaborator —
the stored rows plus the next id the storage engine will assign. -/
structure DB where
  rows : List Cat
  nextId : Nat
deriving Repr, DecidableEq

/-- The empty storage state; the storage engine assigns ids from 1. -/
def DB.init : DB := ⟨[], 1⟩

/-- Look up a key in a JSON object (first occurrence wins). -/
def lookupField (body : JObj) (k : String) : Option JVal :=
  (body.find? (fun kv => kv.1 = k)).map (fun kv => kv.2)

/-- A validation failure: the offending field and the violated constraint. -/
abbrev FieldError := String × String

/-- Modelled from the spec: validation of a text field — the value must
be a JSON string, must not exceed the declared maximum length, and (per
the framework default for the `CharField` declarations in
`cats/models.py`, which the spec leaves unstated) must not be blank. -/
def validateText (fname : String) (maxLen : Nat) (v : JVal) :
    Except FieldError String :=
  match v with
  | .jstr s =>
      if s.length = 0 then .error (fname, "blank")
      else if s.length > maxLen then .error (fname, "max_length")
      else .ok s
  | _ => .error (fname, "invalid_type")

/-- Modelled from the spec: validation of the integer field — the value
must be a JSON integer; no range constraint is declared. -/
def validateInt (fname : String) (v : JVal) : Except FieldError Int :=
  match v with
  | .jint i => .ok i
  | _ => .error (fname, "invalid_type")

/-- The validated fields extracted from a write body.  For a non-partial
request all three are present; for a partial (PATCH) request only the
supplied ones are. -/
structure CatPatch where
  name : Option String
  age : Option Int
  gender : Option String
deriving Repr, DecidableEq

/-- Modelled from the spec: per-field deserialization step — a declared
field present in the body is validated; a missing field is skipped when
`patchFlag` is set and is a `required` error otherwise. -/
def checkField {α : Type} (body : JObj) (patchFlag : Bool) (fname : String)
    (valid : JVal → Except FieldError α) : Except FieldError (Option α) :=
  match lookupField body fname with
  | none => if patchFlag then .ok none else .error (fname, "required")
  | some v => (valid v).map some

/-- The errors contributed by one field's check. -/
def errsOf {α : Type} : Except FieldError (Option α) → List FieldError
  | .error e => [e]
  | .ok _ => []

/-- Modelled from the spec: `Deserialize(JSON object, partial flag)` of
the representation mapper (`cats/serializers.py`, `CatSerializer` over
all model fields).  Only the declared writable fields `name`, `age`,
`gender` are consulted; any other key, including `id`, is ignored.  On
failure the error enumerates every missing or invalid field. -/
def deserialize (body : JObj) (patchFlag : Bool) :
    Except (List FieldError) CatPatch :=
  let rn := checkField body patchFlag "name" (validateText "name" 64)
  let ra := checkField body patchFlag "age" (validateInt "age")
  let rg := checkField body patchFlag "gender" (validateText "gender" 32)
  match rn, ra, rg with
  | .ok n, .ok a, .ok g => .ok ⟨n, a, g⟩
  | _, _, _ => .error (errsOf rn ++ errsOf ra ++ errsOf rg)

/-- Modelled from the spec: `Serialize(entity)` — all four fields,
verbatim, no filtering or renaming. -/
def serializeCat (c : Cat) : JObj :=
  [("id", .jint (c.id : Int)), ("name", .jstr c.name),
   ("age", .jint c.age), ("gender", .jstr c.gender)]

/-- Apply validated fields to an entity: supplied fields replace the old
values, absent fields are left unchanged; `id` is never touched. -/
def applyPatch (c : Cat) (p : CatPatch) : Cat :=
  { c with
    name := p.name.getD c.name
    age := p.age.getD c.age
    gender := p.gender.getD c.gender }

/-- Modelled from the spec: `getRow(id)` of the persistence collaborator. -/
def getRow (db : DB) (i : Nat) : Option Cat :=
  db.rows.find? (fun c => c.id = i)

/-- Modelled from the spec: `updateRow(id, fields)` — apply the field
changes in place to the persisted record with the given id. -/
def updateRow (db : DB) (i : Nat) (p : CatPatch) : DB :=
  { db with rows := db.rows.map (fun c => if c.id = i then applyPatch c p else c) }

/-- Modelled from the spec: `deleteRow(id)` — permanently remove the
record with the given id. -/
def deleteRow (db : DB) (i : Nat) : DB :=
  { db with rows := db.rows.filter (fun c => ¬ c.id = i) }

/-- The HTTP-level outcome of one operation. -/
inductive Response where
  | okList : List JObj → Response
  | okObj : JObj → Response
  | created : JObj → Response
  | noContent : Response
  | validationError : List FieldError → Response
  | unauthorized : Response
  | notFound : Response
deriving Repr, DecidableEq

/-- The six operations exposed by the router over `CatViewSet`
(`cats/urls.py`): LIST, CREATE, RETRIEVE, UPDATE (full when the flag is
`false`, partial/PATCH when `true`), DELETE. -/
inductive Request where
  | list : Request
  | create : JObj → Request
  | retrieve : Nat → Request
  | update : Bool → Nat → JObj → Request
  | delete : Nat → Request
deriving Repr, DecidableEq

/-- Modelled from the spec: the resource handler (`CatViewSet` with
`permission_classes = [IsAuthenticated]`).  `auth` is whether the caller
presented valid credentials; the check runs before any schema or storage
access.  Each operation then follows §4.3 of the contract: LIST
serializes all rows; CREATE deserializes non-partially and persists with
the storage-assigned id; RETRIEVE/UPDATE/DELETE first look the id up and
fail with `notFound` when absent; UPDATE deserializes (with the patch
flag for PATCH), failing with `validationError` and no mutation on bad
input, otherwise applies the changes; DELETE removes the row and returns
no body. -/
def handle (auth : Bool) (req : Request) (db : DB) : Response × DB :=
  if auth then
    match req with
    | .list => (.okList (db.rows.map serializeCat), db)
    | .create body =>
        match deserialize body false with
        | .error es => (.validationError es, db)
        | .ok p =>
            let c := applyPatch ⟨db.nextId, "", 0, ""⟩ p
            (.created (serializeCat c), ⟨db.rows ++ [c], db.nextId + 1⟩)
    | .retrieve i =>
        match getRow db i with
        | none => (.notFound, db)
        | some c => (.okObj (serializeCat c), db)
    | .update patchFlag i body =>
        match getRow db i with
        | none => (.notFound, db)
        | some c =>
            match deserialize body patchFlag with
            | .error es => (.validationError es, db)
            | .ok p => (.okObj (serializeCat (applyPatch c p)), updateRow db i p)
    | .delete i =>
        match getRow db i with
        | none => (.notFound, db)
        | some _ => (.noContent, deleteRow db i)
  else (.unauthorized, db)

/-- The number of records LIST reports on a storage state. -/
def listCount (db : DB) : Nat := db.rows.length

/-! ## Helper lemmas -/

lemma length_zero_iff_empty (s : String) : s.length = 0 ↔ s = "" := by
  cases s with
  | mk d =>
    constructor
    · intro h
      have hd : d = [] := List.length_eq_zero.mp (by simpa [String.length] using h)
      subst hd
      rfl
    · intro h
      have hd : d = [] := congrArg String.data h
      simp [String.length, hd]

lemma validateText_ok_of (fname : String) (maxLen : Nat) (s : String)
    (h0 : s ≠ "") (hle : s.length ≤ maxLen) :
    validateText fname maxLen (.jstr s) = .ok s := by
  have hA : ¬ s.length = 0 := fun h => h0 ((length_zero_iff_empty s).mp h)
  have hB : ¬ s.length > maxLen := by omega
  simp [validateText, hA, hB]

lemma validateText_errfield (fname : String) (maxLen : Nat) (v : JVal) (e : FieldError)
    (h : validateText fname maxLen v = .error e) : e.1 = fname := by
  cases v <;> simp [validateText] at h
  case jstr s =>
    split at h <;> [skip; split at h]
    · cases h; rfl
    · cases h; rfl
    · cases h
  all_goals (cases h; rfl)

lemma validateInt_errfield (fname : String) (v : JVal) (e : FieldError)
    (h : validateInt fname v = .error e) : e.1 = fname := by
  cases v <;> simp [validateInt] at h <;> (cases h; rfl)

lemma validateText_ok_shape (fname : String) (maxLen : Nat) (v : JVal) (s : String)
    (h : validateText fname maxLen v = .ok s) : v = .jstr s := by
  cases v <;> simp [validateText] at h
  case jstr t =>
    split at h <;> [skip; split at h]
    · cases h
    · cases h
    · cases h; rfl

lemma validateInt_ok_shape (fname : String) (v : JVal) (i : Int)
    (h : validateInt fname v = .ok i) : v = .jint i := by
  cases v <;> simp [validateInt] at h
  case jint j => cases h; rfl

lemma lookupField_cons_ne (k f : String) (v : JVal) (body : JObj) (h : k ≠ f) :
    lookupField ((k, v) :: body) f = lookupField body f := by
  simp [lookupField, List.find?_cons_of_neg, h]

lemma checkField_none_patch {α : Type} (body : JObj) (f : String)
    (valid : JVal → Except FieldError α) (h : lookupField body f = none) :
    checkField body true f valid = .ok none := by
  simp [checkField, h]

lemma checkField_none_full {α : Type} (body : JObj) (f : String)
    (valid : JVal → Except FieldError α) (h : lookupField body f = none) :
    checkField body false f valid = .error (f, "required") := by
  simp [checkField, h]

lemma checkField_some {α : Type} (body : JObj) (pf : Bool) (f : String)
    (valid : JVal → Except FieldError α) (v : JVal) (h : lookupField body f = some v) :
    checkField body pf f valid = (valid v).map some := by
  simp [checkField, h]

lemma checkField_error_field {α : Type} (body : JObj) (pf : Bool) (f : String)
    (valid : JVal → Except FieldError α) (e : FieldError)
    (hv : ∀ v e2, valid v = .error e2 → e2.1 = f)
    (h : checkField body pf f valid = .error e) : e.1 = f := by
  rcases hl : lookupField body f with _ | v
  · cases pf
    · rw [checkField_none_full body f valid hl] at h
      cases h; rfl
    · rw [checkField_none_patch body f valid hl] at h
      cases h
  · rw [checkField_some body pf f valid v hl] at h
    rcases hv2 : valid v with e2 | o <;> rw [hv2] at h <;>
      simp only [Except.map] at h <;> cases h
    exact hv v _ hv2

lemma deserialize_error_of_name (body : JObj) (pf : Bool) (e : FieldError)
    (h : checkField body pf "name" (validateText "name" 64) = .error e) :
    ∃ es, deserialize body pf = .error es ∧ e ∈ es := by
  simp only [deserialize]
  rw [h]
  exact ⟨_, rfl, by simp [errsOf]⟩

lemma deserialize_error_of_age (body : JObj) (pf : Bool) (e : FieldError)
    (h : checkField body pf "age" (validateInt "age") = .error e) :
    ∃ es, deserialize body pf = .error es ∧ e ∈ es := by
  simp only [deserialize]
  rw [h]
  rcases hn : checkField body pf "name" (validateText "name" 64) with en | vn <;>
    exact ⟨_, rfl, by simp [errsOf]⟩

lemma deserialize_error_of_gender (body : JObj) (pf : Bool) (e : FieldError)
    (h : checkField body pf "gender" (validateText "gender" 32) = .error e) :
    ∃ es, deserialize body pf = .error es ∧ e ∈ es := by
  simp only [deserialize]
  rw [h]
  rcases hn : checkField body pf "name" (validateText "name" 64) with en | vn <;>
    rcases ha : checkField body pf "age" (validateInt "age") with ea | oa <;>
      exact ⟨_, rfl, by simp [errsOf]⟩

lemma deserialize_full_ok (body : JObj) (pf : Bool) (n : String) (a : Int) (g : String)
    (hn : lookupField body "name" = some (.jstr n)) (h64 : n.length ≤ 64) (hn0 : n ≠ "")
    (ha : lookupField body "age" = some (.jint a))
    (hg : lookupField body "gender" = some (.jstr g)) (h32 : g.length ≤ 32) (hg0 : g ≠ "") :
    deserialize body pf = .ok ⟨some n, some a, some g⟩ := by
  simp only [deserialize]
  rw [checkField_some _ _ _ _ _ hn, checkField_some _ _ _ _ _ ha,
      checkField_some _ _ _ _ _ hg, validateText_ok_of _ _ _ hn0 h64,
      validateText_ok_of _ _ _ hg0 h32]
  rfl

lemma deserialize_congr (b1 b2 : JObj) (pf : Bool)
    (h1 : lookupField b1 "name" = lookupField b2 "name")
    (h2 : lookupField b1 "age" = lookupField b2 "age")
    (h3 : lookupField b1 "gender" = lookupField b2 "gender") :
    deserialize b1 pf = deserialize b2 pf := by
  simp only [deserialize, checkField, h1, h2, h3]

/-! ## Claim theorems -/

/-- C2: every one of the six operations, when the caller lacks valid
authentication credentials, fails with Unauthorized and leaves the
stored state unchanged — the check precedes any schema or storage
access. -/
theorem unauthenticated_rejected (req : Request) (db : DB) :
    handle false req db = (.unauthorized, db) := by
  simp [handle]

/-- C3: a CREATE request whose body fails validation yields a
ValidationError, persists nothing, and leaves the LIST count
unchanged. -/
theorem invalid_create_leaves_storage_unchanged (db : DB) (body : JObj)
    (es : List FieldError) (h : deserialize body false = .error es) :
    handle true (.create body) db = (.validationError es, db)
      ∧ listCount (handle true (.create body) db).2 = listCount db := by
  constructor <;> simp [handle, h]

/-- The 65-character name used to witness the validation failure. -/
def longName : String := String.mk (List.replicate 65 'a')

/-- A CREATE body whose name has 65 characters. -/
def body65 : JObj :=
  [("name", .jstr longName), ("age", .jint 3), ("gender", .jstr "male")]

/-- Witness for C3: the 65-character name is rejected with a max-length
error and the storage state is untouched. -/
theorem invalid_create_witness :
    handle true (.create body65) DB.init = (.validationError [("name", "max_length")], DB.init)
      ∧ listCount (handle true (.create body65) DB.init).2 = listCount DB.init :=
  invalid_create_leaves_storage_unchanged DB.init body65 [("name", "max_length")] rfl

lemma getRow_append_fresh (db : DB) (c : Cat) (h : ∀ x ∈ db.rows, x.id ≠ c.id) :
    (db.rows ++ [c]).find? (fun x => x.id = c.id) = some c := by
  rw [List.find?_append]
  have h1 : db.rows.find? (fun x => x.id = c.id) = none := by
    rw [List.find?_eq_none]
    intro x hx
    simp [h x hx]
  rw [h1]
  simp

/-- C1 counterexample: a body whose name and gender satisfy the claim's
stated validity conditions (name of at most 64 characters, integer age,
gender of at most 32 characters) but whose gender is the empty string is
rejected by CREATE with a validation error, so no entity with those
fields is ever created or retrievable. -/
theorem create_blank_gender_counterexample :
    handle true (.create [("name", .jstr "Tom"), ("age", .jint 3), ("gender", .jstr "")])
        DB.init
      = (.validationError [("gender", "blank")], DB.init)
    ∧ "Tom".length ≤ 64 ∧ "".length ≤ 32 :=
  ⟨rfl, by decide, by decide⟩

/-- C1 (amended: the name and gender must additionally be non-empty,
because blank text fields are rejected on deserialization): for such a
valid input, CREATE persists the entity under the storage-assigned id
and a subsequent RETRIEVE on that id returns exactly the input fields
plus the non-null assigned id. -/
theorem create_then_retrieve_roundtrip (db : DB) (n g : String) (a : Int)
    (h64 : n.length ≤ 64) (hn0 : n ≠ "") (h32 : g.length ≤ 32) (hg0 : g ≠ "")
    (hfresh : ∀ x ∈ db.rows, x.id ≠ db.nextId) :
    handle true (.create [("name", .jstr n), ("age", .jint a), ("gender", .jstr g)]) db
      = (.created (serializeCat ⟨db.nextId, n, a, g⟩),
         ⟨db.rows ++ [⟨db.nextId, n, a, g⟩], db.nextId + 1⟩)
    ∧ handle true (.retrieve db.nextId) ⟨db.rows ++ [⟨db.nextId, n, a, g⟩], db.nextId + 1⟩
        = (.okObj (serializeCat ⟨db.nextId, n, a, g⟩),
           ⟨db.rows ++ [⟨db.nextId, n, a, g⟩], db.nextId + 1⟩)
    ∧ lookupField (serializeCat ⟨db.nextId, n, a, g⟩) "id" = some (.jint (db.nextId : Int))
    ∧ (JVal.jint (db.nextId : Int)) ≠ .jnull := by
  have hdes : deserialize [("name", .jstr n), ("age", .jint a), ("gender", .jstr g)] false
      = .ok ⟨some n, some a, some g⟩ :=
    deserialize_full_ok _ _ n a g rfl h64 hn0 rfl rfl h32 hg0
  have hget : getRow ⟨db.rows ++ [⟨db.nextId, n, a, g⟩], db.nextId + 1⟩ db.nextId
      = some ⟨db.nextId, n, a, g⟩ :=
    getRow_append_fresh db ⟨db.nextId, n, a, g⟩ hfresh
  refine ⟨?_, ?_, rfl, by simp⟩
  · simp only [handle, hdes]
    rfl
  · simp [handle, hget]

/-- A one-record storage state used by several witnesses. -/
def dbOne : DB := ⟨[⟨1, "Tom", 3, "male"⟩], 2⟩

/-- Witness for C1: creating Tom in the empty store assigns id 1 and
retrieving id 1 returns Tom. -/
theorem create_then_retrieve_witness :
    handle true (.create [("name", .jstr "Tom"), ("age", .jint 3), ("gender", .jstr "male")])
        DB.init
      = (.created (serializeCat ⟨1, "Tom", 3, "male"⟩), ⟨[⟨1, "Tom", 3, "male"⟩], 2⟩)
    ∧ handle true (.retrieve 1) ⟨[⟨1, "Tom", 3, "male"⟩], 2⟩
        = (.okObj (serializeCat ⟨1, "Tom", 3, "male"⟩), ⟨[⟨1, "Tom", 3, "male"⟩], 2⟩)
    ∧ lookupField (serializeCat ⟨1, "Tom", 3, "male"⟩) "id" = some (.jint 1)
    ∧ (JVal.jint 1) ≠ .jnull :=
  create_then_retrieve_roundtrip DB.init "Tom" "male" 3 (by decide) (by decide)
    (by decide) (by decide) (by intro x hx; simp [DB.init] at hx)

/-- C6: a partial UPDATE whose body is exactly `{"age": 5}` on an
existing record sets that record's age to 5 and leaves its id, name and
gender unchanged (for every row with the addressed id; rows with other
ids are untouched). -/
theorem patch_age_only_updates_age (db : DB) (i : Nat) (c : Cat)
    (h : getRow db i = some c) :
    handle true (.update true i [("age", .jint 5)]) db
      = (.okObj (serializeCat ⟨c.id, c.name, 5, c.gender⟩),
         ⟨db.rows.map (fun x => if x.id = i then ⟨x.id, x.name, 5, x.gender⟩ else x),
          db.nextId⟩) := by
  have hdes : deserialize [("age", .jint 5)] true = .ok ⟨none, some 5, none⟩ := rfl
  simp only [handle, h, hdes]
  rfl

/-- Witness for C6: patching Tom's age to 5 leaves name, gender and id
alone. -/
theorem patch_age_witness :
    handle true (.update true 1 [("age", .jint 5)]) dbOne
      = (.okObj (serializeCat ⟨1, "Tom", 5, "male"⟩), ⟨[⟨1, "Tom", 5, "male"⟩], 2⟩) :=
  patch_age_only_updates_age dbOne 1 ⟨1, "Tom", 3, "male"⟩ rfl

lemma getRow_deleteRow (db : DB) (i : Nat) : getRow (deleteRow db i) i = none := by
  simp [getRow, deleteRow, List.find?_eq_none, List.mem_filter]

/-- C7: deleting a persisted id succeeds with no body and a subsequent
RETRIEVE on that id yields NotFound; RETRIEVE, UPDATE and DELETE on an
id with no record all fail with NotFound and leave the state
unchanged. -/
theorem delete_then_retrieve_notfound (db : DB) (i : Nat) :
    (∀ c, getRow db i = some c →
      handle true (.delete i) db = (.noContent, deleteRow db i)
        ∧ handle true (.retrieve i) (deleteRow db i) = (.notFound, deleteRow db i))
    ∧ (getRow db i = none →
        handle true (.retrieve i) db = (.notFound, db)
          ∧ (∀ pf body, handle true (.update pf i body) db = (.notFound, db))
          ∧ handle true (.delete i) db = (.notFound, db)) := by
  constructor
  · intro c hc
    refine ⟨by simp [handle, hc], ?_⟩
    simp [handle, getRow_deleteRow db i]
  · intro h0
    exact ⟨by simp [handle, h0], fun pf body => by simp [handle, h0],
      by simp [handle, h0]⟩

/-- Witness for C7: deleting id 1 then retrieving it yields NotFound,
and operations on the absent id 2 yield NotFound. -/
theorem delete_then_retrieve_witness :
    (handle true (.delete 1) dbOne = (.noContent, deleteRow dbOne 1)
      ∧ handle true (.retrieve 1) (deleteRow dbOne 1) = (.notFound, deleteRow dbOne 1))
    ∧ (handle true (.retrieve 2) dbOne = (.notFound, dbOne)
        ∧ handle true (.update false 2 []) dbOne = (.notFound, dbOne)
        ∧ handle true (.delete 2) dbOne = (.notFound, dbOne)) := by
  refine ⟨(delete_then_retrieve_notfound dbOne 1).1 ⟨1, "Tom", 3, "male"⟩ rfl, ?_⟩
  have h := (delete_then_retrieve_notfound dbOne 2).2 rfl
  exact ⟨h.1, h.2.1 false [], h.2.2⟩

lemma deserialize_error_field_names (body : JObj) (pf : Bool) (es : List FieldError)
    (hd : deserialize body pf = .error es) :
    ∀ e ∈ es,
      checkField body pf "name" (validateText "name" 64) = .error e
      ∨ checkField body pf "age" (validateInt "age") = .error e
      ∨ checkField body pf "gender" (validateText "gender" 32) = .error e := by
  intro e he
  simp only [deserialize] at hd
  rcases hn : checkField body pf "name" (validateText "name" 64) with en | vn <;> rw [hn] at hd <;>
    rcases ha : checkField body pf "age" (validateInt "age") with ea | va <;> rw [ha] at hd <;>
      rcases hg : checkField body pf "gender" (validateText "gender" 32) with eg | vg <;>
        rw [hg] at hd <;> simp [errsOf] at hd <;> subst hd <;> simp at he
  all_goals aesop

lemma deserialize_ok_components (body : JObj) (pf : Bool) (p : CatPatch)
    (hd : deserialize body pf = .ok p) :
    checkField body pf "name" (validateText "name" 64) = .ok p.name
    ∧ checkField body pf "age" (validateInt "age") = .ok p.age
    ∧ checkField body pf "gender" (validateText "gender" 32) = .ok p.gender := by
  simp only [deserialize] at hd
  rcases hn : checkField body pf "name" (validateText "name" 64) with en | vn <;> rw [hn] at hd <;>
    rcases ha : checkField body pf "age" (validateInt "age") with ea | va <;> rw [ha] at hd <;>
      rcases hg : checkField body pf "gender" (validateText "gender" 32) with eg | vg <;>
        rw [hg] at hd <;> simp at hd
  subst hd
  exact ⟨rfl, rfl, rfl⟩

/-- C4: a type mismatch (non-integer age) or a length overflow (name
over 64, gender over 32) fails with a ValidationError naming the
offending field and the violated constraint, and a value is accepted
only as the exact type it was sent as — never coerced. -/
theorem type_or_length_violation_rejected (pf : Bool) (body : JObj) (v : JVal) :
    (lookupField body "age" = some v → (∀ i, v ≠ .jint i) →
      ∃ es, deserialize body pf = .error es ∧ ("age", "invalid_type") ∈ es)
    ∧ (∀ s, lookupField body "name" = some (.jstr s) → s.length > 64 →
        ∃ es, deserialize body pf = .error es ∧ ("name", "max_length") ∈ es)
    ∧ (∀ s, lookupField body "gender" = some (.jstr s) → s.length > 32 →
        ∃ es, deserialize body pf = .error es ∧ ("gender", "max_length") ∈ es)
    ∧ (∀ fname maxLen s, validateText fname maxLen v = .ok s → v = .jstr s)
    ∧ (∀ fname i, validateInt fname v = .ok i → v = .jint i) := by
  refine ⟨?_, ?_, ?_, fun fname maxLen s h => validateText_ok_shape fname maxLen v s h,
    fun fname i h => validateInt_ok_shape fname v i h⟩
  · intro hl hv
    apply deserialize_error_of_age
    rw [checkField_some _ _ _ _ _ hl]
    cases v with
    | jint i => exact absurd rfl (hv i)
    | jnull => rfl
    | jbool b => rfl
    | jstr s => rfl
  · intro s hl hlen
    apply deserialize_error_of_name
    rw [checkField_some _ _ _ _ _ hl]
    have h0 : ¬ s.length = 0 := by omega
    simp [validateText, h0, hlen, Except.map]
  · intro s hl hlen
    apply deserialize_error_of_gender
    rw [checkField_some _ _ _ _ _ hl]
    have h0 : ¬ s.length = 0 := by omega
    simp [validateText, h0, hlen, Except.map]

/-- Witness for C4: a string-valued age is a type mismatch reported
against the age field. -/
theorem type_or_length_witness :
    ∃ es, deserialize [("age", .jstr "x")] false = .error es
      ∧ ("age", "invalid_type") ∈ es :=
  (type_or_length_violation_rejected false [("age", .jstr "x")] (.jstr "x")).1 rfl
    (fun _ h => nomatch h)

/-- C5: on a non-partial request every one of the three non-id fields is
required and a missing one is enumerated in the ValidationError; on a
partial request a field absent from the body is neither validated (it
never contributes an error) nor applied (the patch leaves it
unchanged). -/
theorem required_and_patch_semantics (body : JObj) :
    (lookupField body "name" = none →
      ∃ es, deserialize body false = .error es ∧ ("name", "required") ∈ es)
    ∧ (lookupField body "age" = none →
      ∃ es, deserialize body false = .error es ∧ ("age", "required") ∈ es)
    ∧ (lookupField body "gender" = none →
      ∃ es, deserialize body false = .error es ∧ ("gender", "required") ∈ es)
    ∧ (lookupField body "name" = none →
        (∀ es, deserialize body true = .error es → ∀ m, ("name", m) ∉ es)
        ∧ ∀ p, deserialize body true = .ok p → p.name = none
            ∧ ∀ c, (applyPatch c p).name = c.name)
    ∧ (lookupField body "age" = none →
        (∀ es, deserialize body true = .error es → ∀ m, ("age", m) ∉ es)
        ∧ ∀ p, deserialize body true = .ok p → p.age = none
            ∧ ∀ c, (applyPatch c p).age = c.age)
    ∧ (lookupField body "gender" = none →
        (∀ es, deserialize body true = .error es → ∀ m, ("gender", m) ∉ es)
        ∧ ∀ p, deserialize body true = .ok p → p.gender = none
            ∧ ∀ c, (applyPatch c p).gender = c.gender) := by
  refine ⟨?_, ?_, ?_, ?_, ?_, ?_⟩
  · intro h
    exact deserialize_error_of_name body false _ (checkField_none_full body _ _ h)
  · intro h
    exact deserialize_error_of_age body false _ (checkField_none_full body _ _ h)
  · intro h
    exact deserialize_error_of_gender body false _ (checkField_none_full body _ _ h)
  · intro hn
    have hck : checkField body true "name" (validateText "name" 64) = .ok none :=
      checkField_none_patch body _ _ hn
    constructor
    · intro es hd m hmem
      rcases deserialize_error_field_names body true es hd _ hmem with h1 | h1 | h1
      · rw [hck] at h1; cases h1
      · have h2 := checkField_error_field body true "age" (validateInt "age") _
          (fun v2 e2 h => validateInt_errfield _ v2 e2 h) h1
        exact absurd (show ("name" : String) = "age" from h2) (by decide)
      · have h2 := checkField_error_field body true "gender" (validateText "gender" 32) _
          (fun v2 e2 h => validateText_errfield _ _ v2 e2 h) h1
        exact absurd (show ("name" : String) = "gender" from h2) (by decide)
    · intro p hd
      have hc := (deserialize_ok_components body true p hd).1
      rw [hck] at hc
      have hpn : p.name = none := by injection hc with h2; exact h2.symm
      exact ⟨hpn, fun c => by simp [applyPatch, hpn]⟩
  · intro hn
    have hck : checkField body true "age" (validateInt "age") = .ok none :=
      checkField_none_patch body _ _ hn
    constructor
    · intro es hd m hmem
      rcases deserialize_error_field_names body true es hd _ hmem with h1 | h1 | h1
      · have h2 := checkField_error_field body true "name" (validateText "name" 64) _
          (fun v2 e2 h => validateText_errfield _ _ v2 e2 h) h1
        exact absurd (show ("age" : String) = "name" from h2) (by decide)
      · rw [hck] at h1; cases h1
      · have h2 := checkField_error_field body true "gender" (validateText "gender" 32) _
          (fun v2 e2 h => validateText_errfield _ _ v2 e2 h) h1
        exact absurd (show ("age" : String) = "gender" from h2) (by decide)
    · intro p hd
      have hc := (deserialize_ok_components body true p hd).2.1
      rw [hck] at hc
      have hpn : p.age = none := by injection hc with h2; exact h2.symm
      exact ⟨hpn, fun c => by simp [applyPatch, hpn]⟩
  · intro hn
    have hck : checkField body true "gender" (validateText "gender" 32) = .ok none :=
      checkField_none_patch body _ _ hn
    constructor
    · intro es hd m hmem
      rcases deserialize_error_field_names body true es hd _ hmem with h1 | h1 | h1
      · have h2 := checkField_error_field body true "name" (validateText "name" 64) _
          (fun v2 e2 h => validateText_errfield _ _ v2 e2 h) h1
        exact absurd (show ("gender" : String) = "name" from h2) (by decide)
      · have h2 := checkField_error_field body true "age" (validateInt "age") _
          (fun v2 e2 h => validateInt_errfield _ v2 e2 h) h1
        exact absurd (show ("gender" : String) = "age" from h2) (by decide)
      · rw [hck] at h1; cases h1
    · intro p hd
      have hc := (deserialize_ok_components body true p hd).2.2
      rw [hck] at hc
      have hpn : p.gender = none := by injection hc with h2; exact h2.symm
      exact ⟨hpn, fun c => by simp [applyPatch, hpn]⟩

/-- Witness for C5: a body holding only the age is rejected on a
non-partial request with the name enumerated as required, while a
partial request neither validates nor applies the absent name. -/
theorem required_and_patch_witness :
    (∃ es, deserialize [("age", .jint 3)] false = .error es ∧ ("name", "required") ∈ es)
    ∧ ((⟨none, some 3, none⟩ : CatPatch).name = none
        ∧ ∀ c, (applyPatch c ⟨none, some 3, none⟩).name = c.name) :=
  ⟨(required_and_patch_semantics [("age", .jint 3)]).1 rfl,
    ((required_and_patch_semantics [("age", .jint 3)]).2.2.2.1 rfl).2
      ⟨none, some 3, none⟩ rfl⟩

/-- C8: an `id` key in a CREATE or UPDATE body is ignored — the
deserializer and hence the whole operation behave identically with or
without it — and on CREATE the id of the returned entity is the one
assigned by the persistence layer (the store's next id), regardless of
anything in the body. -/
theorem client_id_ignored (db : DB) (body : JObj) (v : JVal) (pf : Bool) (i : Nat) :
    deserialize (("id", v) :: body) pf = deserialize body pf
    ∧ handle true (.create (("id", v) :: body)) db = handle true (.create body) db
    ∧ handle true (.update pf i (("id", v) :: body)) db = handle true (.update pf i body) db
    ∧ (∀ j db2, handle true (.create body) db = (.created j, db2) →
        lookupField j "id" = some (.jint (db.nextId : Int))) := by
  have hdes : ∀ pf2, deserialize (("id", v) :: body) pf2 = deserialize body pf2 := fun pf2 =>
    deserialize_congr _ _ pf2 (lookupField_cons_ne _ _ _ _ (by decide))
      (lookupField_cons_ne _ _ _ _ (by decide)) (lookupField_cons_ne _ _ _ _ (by decide))
  refine ⟨hdes pf, ?_, ?_, ?_⟩
  · simp only [handle, hdes false]
  · simp only [handle, hdes pf]
  · intro j db2 h
    simp only [handle] at h
    rcases hd : deserialize body false with es | p <;> rw [hd] at h <;> simp at h
    rw [← h.1]
    rfl

/-- Witness for C8: creating Tom yields an entity whose id is the
store-assigned 1. -/
theorem client_id_witness :
    lookupField (serializeCat ⟨1, "Tom", 3, "male"⟩) "id" = some (.jint 1) :=
  (client_id_ignored DB.init
      [("name", .jstr "Tom"), ("age", .jint 3), ("gender", .jstr "male")]
      .jnull false 0).2.2.2
    (serializeCat ⟨1, "Tom", 3, "male"⟩) ⟨[⟨1, "Tom", 3, "male"⟩], 2⟩ rfl

/-- C9: a supplied empty-string name or gender is rejected with a
blank-value ValidationError on that field even though the empty string
satisfies the declared maximum length, and a CREATE carrying a blank
name fails without touching storage. -/
theorem blank_text_rejected (db : DB) (body : JObj) (pf : Bool) :
    validateText "name" 64 (.jstr "") = .error ("name", "blank")
    ∧ validateText "gender" 32 (.jstr "") = .error ("gender", "blank")
    ∧ ("" : String).length ≤ 64 ∧ ("" : String).length ≤ 32
    ∧ (lookupField body "name" = some (.jstr "") →
        ∃ es, deserialize body pf = .error es ∧ ("name", "blank") ∈ es)
    ∧ (lookupField body "gender" = some (.jstr "") →
        ∃ es, deserialize body pf = .error es ∧ ("gender", "blank") ∈ es)
    ∧ (lookupField body "name" = some (.jstr "") →
        ∃ es, handle true (.create body) db = (.validationError es, db)
          ∧ ("name", "blank") ∈ es) := by
  refine ⟨rfl, rfl, by decide, by decide, ?_, ?_, ?_⟩
  · intro h
    apply deserialize_error_of_name
    rw [checkField_some _ _ _ _ _ h]
    rfl
  · intro h
    apply deserialize_error_of_gender
    rw [checkField_some _ _ _ _ _ h]
    rfl
  · intro h
    have h1 : checkField body false "name" (validateText "name" 64)
        = .error ("name", "blank") := by
      rw [checkField_some _ _ _ _ _ h]
      rfl
    obtain ⟨es, hd, hm⟩ := deserialize_error_of_name body false _ h1
    exact ⟨es, by simp [handle, hd], hm⟩

/-- Witness for C9: a body whose name is the empty string is rejected
with a blank error on the name field. -/
theorem blank_text_witness :
    ∃ es, deserialize [("name", .jstr "")] false = .error es ∧ ("name", "blank") ∈ es :=
  (blank_text_rejected DB.init [("name", .jstr "")] false).2.2.2.2.1 rfl

lemma updateRow_empty (db : DB) (i : Nat) : updateRow db i ⟨none, none, none⟩ = db := by
  simp [updateRow, applyPatch]

/-- C10: a partial UPDATE with an empty body succeeds and returns the
record with every field unchanged, leaving the store as it was; and a
body key that is none of the declared fields is ignored by the
deserializer rather than causing an error. -/
theorem empty_patch_and_unknown_keys (db : DB) (i : Nat) (k : String) (v : JVal)
    (body : JObj) (pf : Bool) :
    (∀ c, getRow db i = some c →
      handle true (.update true i []) db = (.okObj (serializeCat c), db))
    ∧ (k ≠ "name" → k ≠ "age" → k ≠ "gender" →
        deserialize ((k, v) :: body) pf = deserialize body pf) := by
  constructor
  · intro c hc
    have hdes : deserialize [] true = .ok ⟨none, none, none⟩ := rfl
    simp only [handle, hc, hdes, updateRow_empty]
    rfl
  · intro h1 h2 h3
    exact deserialize_congr _ _ pf (lookupField_cons_ne _ _ _ _ h1)
      (lookupField_cons_ne _ _ _ _ h2) (lookupField_cons_ne _ _ _ _ h3)

/-- Witness for C10: an empty PATCH on Tom returns Tom unchanged, and an
unknown key `color` is ignored. -/
theorem empty_patch_witness :
    handle true (.update true 1 []) dbOne
      = (.okObj (serializeCat ⟨1, "Tom", 3, "male"⟩), dbOne)
    ∧ deserialize [("color", .jnull)] false = deserialize [] false :=
  ⟨(empty_patch_and_unknown_keys dbOne 1 "color" .jnull [] false).1
      ⟨1, "Tom", 3, "male"⟩ rfl,
    (empty_patch_and_unknown_keys dbOne 1 "color" .jnull [] false).2
      (by decide) (by decide) (by decide)⟩
